import Mathlib

/-!
Verification of the core `SkillInteractor` of the virtual-alexa repository.

The interactor (src: `SkillInteractor.ts`, abstract-class variant) is embedded
as pure Lean functions.  Its collaborators (`SkillContext`, `Session`,
`AudioPlayer`, `SkillRequest`, `Utterance`, `InteractionModel`) are not part of
the provided sources; they are modelled from the specification, each with a
doc comment saying so.  The asynchronous invocation boundary is a parameter
`invoke : RequestEnvelope → Except String (Option SkillResponse)`; promise
rejection is the `Except.error` case, resolving with a null/undefined payload
is `Except.ok none`.  Console output is modelled as an explicit log trace.
-/

namespace VirtualAlexa

/-- Modelled from the spec: Audio Player state is one of IDLE, PLAYING,
SUSPENDED (spec section 4.2). -/
inductive AudioPlayerState where
  | idle
  | playing
  | suspended
deriving DecidableEq

/-- Modelled from the spec: the Audio Player holds its playback state plus the
currently playing item reference and offset (spec section 3). -/
structure AudioPlayer where
  state : AudioPlayerState
  item : Option String
  offset : Nat
deriving DecidableEq

/-- Modelled from the spec: `isPlaying()` is true iff state = PLAYING
(spec section 4.2). -/
def AudioPlayer.isPlaying (p : AudioPlayer) : Bool :=
  match p.state with
  | .playing => true
  | _ => false

/-- Modelled from the spec: `suspend()` moves PLAYING to SUSPENDED and is a
no-op from any other state (spec section 4.2). -/
def AudioPlayer.suspend (p : AudioPlayer) : AudioPlayer :=
  match p.state with
  | .playing => { p with state := .suspended }
  | _ => p

/-- Modelled from the spec: per-conversation Session state: identifier,
attribute mapping, `isNew` flag, `isActive` flag (spec section 3). -/
structure Session where
  id : Nat
  attributes : List (String × String)
  isNew : Bool
  isActive : Bool
deriving DecidableEq

/-- Modelled from the spec: marking a Session used clears `isNew`
(spec section 4.2, `Created -> Used`). -/
def Session.used (s : Session) : Session :=
  { s with isNew := false }

/-- Modelled from the spec: attribute-update policy — a present response
attribute mapping replaces the Session's mapping wholesale (a present empty
mapping clears it); an absent field retains the prior mapping
(spec section 4.2). -/
def Session.updateAttributes (s : Session) (attrs : Option (List (String × String))) : Session :=
  match attrs with
  | none => s
  | some m => { s with attributes := m }

/-- Modelled from the spec: the Interaction Model is consumed by the
interactor only through the Utterance Matcher contract
`match(text) -> (intentName, slotValues) | NoMatch` and the designated
default phrase (spec sections 4.1 and 2); both are kept abstract here. -/
structure InteractionModel where
  matchFn : String → Option (String × List (String × String))
  defaultPhrase : String

/-- Modelled from the spec: an Utterance is one concrete piece of raw input
text together with its (possibly absent) match result (spec section 3 and
glossary). -/
structure Utterance where
  raw : String
  result : Option (String × List (String × String))

/-- Modelled from the spec: constructing an Utterance runs the matcher on the
raw text (spec section 4.1). -/
def Utterance.make (m : InteractionModel) (text : String) : Utterance :=
  { raw := text, result := m.matchFn text }

/-- Modelled from the spec: the unmatched state is queryable
(spec section 3). -/
def Utterance.matched (u : Utterance) : Bool :=
  u.result.isSome

/-- Modelled from the spec: the resolved intent name of a matched Utterance;
on an unmatched Utterance the source language would yield `undefined`. -/
def Utterance.intentName (u : Utterance) : String :=
  match u.result with
  | some (i, _) => i
  | none => "undefined"

/-- Modelled from the spec: the extracted slot mapping of a matched Utterance
(`toJSON` in the source). -/
def Utterance.slotsList (u : Utterance) : List (String × String) :=
  match u.result with
  | some (_, s) => s
  | none => []

/-- Modelled from the spec: the string form of an Utterance is its raw input
text (spec section 3: "Utterance: raw input text"). -/
def Utterance.toStr (u : Utterance) : String :=
  u.raw

/-- Modelled from the spec: the closed enumeration of session termination
reasons (spec section 4.3). -/
inductive SessionEndedReason where
  | userInitiated
  | error
  | exceededMaxReprompts
deriving DecidableEq

/-- Modelled from the spec: the type-specific data a `SkillRequest` is given
by one of its three builder calls (spec section 4.3). -/
inductive RequestTypeSpec where
  | launch
  | intent (name : String)
  | sessionEnded (reason : SessionEndedReason) (errorData : Option String)
deriving DecidableEq

/-- Modelled from the spec: the Request Builder accumulates a request type and
an incrementally built slot map (spec section 4.3); the type is absent until
one of the builder calls sets it. -/
structure SkillRequest where
  requestType : Option RequestTypeSpec
  slots : List (String × String)
deriving DecidableEq

/-- Modelled from the spec: a freshly constructed `SkillRequest` before any
builder call. -/
def SkillRequest.make : SkillRequest :=
  { requestType := none, slots := [] }

/-- Modelled from the spec: `launchRequest()` selects the launch shape. -/
def SkillRequest.launchRequest (r : SkillRequest) : SkillRequest :=
  { r with requestType := some .launch }

/-- Modelled from the spec: `intentRequest(name)` selects the intent shape. -/
def SkillRequest.intentRequest (r : SkillRequest) (name : String) : SkillRequest :=
  { r with requestType := some (.intent name) }

/-- Modelled from the spec: `sessionEndedRequest(reason, errorData)` selects
the session-ended shape. -/
def SkillRequest.sessionEndedRequest (r : SkillRequest) (reason : SessionEndedReason)
    (errorData : Option String) : SkillRequest :=
  { r with requestType := some (.sessionEnded reason errorData) }

/-- Replace the value of a key in an association list, appending the pair when
the key is absent. -/
def setKV (l : List (String × String)) (k v : String) : List (String × String) :=
  if l.any (fun p => p.1 = k) then
    l.map (fun p => if p.1 = k then (k, v) else p)
  else
    l ++ [(k, v)]

/-- Modelled from the spec: `withSlot(name, value)` adds one slot to the
incrementally built slot map (spec section 4.3). -/
def SkillRequest.withSlot (r : SkillRequest) (name value : String) : SkillRequest :=
  { r with slots := setKV r.slots name value }

/-- Modelled from the spec: every current request shape requires an active
session (spec section 4.3: "true for all three current shapes"). -/
def SkillRequest.requiresSession (_ : SkillRequest) : Bool :=
  true

/-- Modelled from the spec: the session block of a serialized envelope:
`{id, new, attributes, application:{id}}` (spec section 6). -/
structure SessionBlock where
  sessionId : Nat
  isNew : Bool
  attributes : List (String × String)
  applicationId : String
deriving DecidableEq

/-- Modelled from the spec: the request block of a serialized envelope varies
by request type (spec sections 4.3 and 6). -/
inductive RequestBlock where
  | launch
  | intent (name : String) (slots : List (String × String))
  | sessionEnded (reason : SessionEndedReason) (errorData : Option String)
deriving DecidableEq

/-- Protocol type tag of a request block, as used in the `CALLING:` log
line (`requestJSON.request.type`). -/
def RequestBlock.typeName : Option RequestBlock → String
  | some .launch => "LaunchRequest"
  | some (.intent _ _) => "IntentRequest"
  | some (.sessionEnded _ _) => "SessionEndedRequest"
  | none => "undefined"

/-- Modelled from the spec: the fully serialized request envelope: version
tag, session block, request block (spec sections 3 and 6). -/
structure RequestEnvelope where
  version : String
  session : Option SessionBlock
  request : Option RequestBlock
deriving DecidableEq

/-- Overwrite the termination reason of a session-ended request block inside
an envelope; identity on every other shape. -/
def RequestEnvelope.setSessionEndedReason (env : RequestEnvelope)
    (r : SessionEndedReason) : RequestEnvelope :=
  { env with request :=
      match env.request with
      | some (.sessionEnded _ ed) => some (.sessionEnded r ed)
      | other => other }

/-- Modelled from the spec: the Skill Context aggregates one Session, one
Audio Player, the Interaction Model, the application identifier, and whether
the skill declares audio player support (spec section 3; the support flag is
read by the interactor as `audioPlayerEnabled()`). -/
structure SkillContext where
  session : Option Session
  audioPlayer : AudioPlayer
  audioPlayerEnabled : Bool
  applicationID : String
  nextSessionId : Nat
  model : InteractionModel

/-- Modelled from the spec: `newSession()` installs a brand-new Session
(new identifier, empty attributes, `isNew = true`, `isActive = true`)
(spec sections 3 and 4.2). -/
def SkillContext.newSession (c : SkillContext) : SkillContext :=
  { c with
      session := some { id := c.nextSessionId, attributes := [], isNew := true, isActive := true },
      nextSessionId := c.nextSessionId + 1 }

/-- Modelled from the spec: `activeSession()` reports whether a Session exists
and its `isActive` flag is set (spec section 3: `isActive` is false before
creation and after termination). -/
def SkillContext.activeSession (c : SkillContext) : Bool :=
  match c.session with
  | some s => s.isActive
  | none => false

/-- Modelled from the spec: `endSession()` terminates the current Session,
clearing its `isActive` flag (spec section 4.2). -/
def SkillContext.endSessionCtx (c : SkillContext) : SkillContext :=
  { c with session := c.session.map (fun s => { s with isActive := false }) }

/-- Modelled from the spec: marking the context's Session used
(`session().used()`). -/
def SkillContext.sessionUsed (c : SkillContext) : SkillContext :=
  { c with session := c.session.map Session.used }

/-- Modelled from the spec: applying the attribute-update policy to the
context's Session (`session().updateAttributes(...)`). -/
def SkillContext.updateSessionAttributes (c : SkillContext)
    (attrs : Option (List (String × String))) : SkillContext :=
  { c with session := c.session.map (fun s => s.updateAttributes attrs) }

/-- Modelled from the spec: `toJSON()` serializes the request against the
Skill Context at serialization time: version tag, session block stamped with
the application identifier, and the request block for the selected shape with
the accumulated slots (spec sections 4.3 and 6). -/
def SkillRequest.toJSON (req : SkillRequest) (c : SkillContext) : RequestEnvelope :=
  { version := "1.0",
    session := c.session.map (fun s =>
      { sessionId := s.id, isNew := s.isNew, attributes := s.attributes,
        applicationId := c.applicationID }),
    request := req.requestType.map (fun t =>
      match t with
      | .launch => RequestBlock.launch
      | .intent name => RequestBlock.intent name req.slots
      | .sessionEnded reason ed => RequestBlock.sessionEnded reason ed) }

/-- Modelled from the spec: the response body object; its directives and
output speech are opaque to this core, only the flag indicating whether the
session should end is consumed (spec section 6). -/
structure ResponseBody where
  shouldEndSession : Bool
deriving DecidableEq

/-- Modelled from the spec: the response payload consumed by the core: a
response object plus a session-attributes mapping, either possibly absent
(spec section 6). -/
structure SkillResponse where
  response : Option ResponseBody
  sessionAttributes : Option (List (String × String))
deriving DecidableEq

/-- Truthiness of `result and result.response and result.response.shouldEndSession`
as tested in `callSkill` after the round trip. -/
def respShouldEndSession (result : Option SkillResponse) : Bool :=
  match result with
  | some r =>
    match r.response with
    | some b => b.shouldEndSession
    | none => false
  | none => false

/-- Console output entry: `console.warn`, `console.error` or `console.log`. -/
inductive LogEntry where
  | warn (msg : String)
  | errorLine (msg : String)
  | info (msg : String)
deriving DecidableEq

/-- Test for a warning entry. -/
def LogEntry.isWarn : LogEntry → Bool
  | .warn _ => true
  | _ => false

/-- Test for an error entry. -/
def LogEntry.isErrorLine : LogEntry → Bool
  | .errorLine _ => true
  | _ => false

/-- Number of warning entries in a log trace. -/
def warnCount (l : List LogEntry) : Nat :=
  l.countP (fun e => e.isWarn)

/-- Number of error entries in a log trace. -/
def errorCount (l : List LogEntry) : Nat :=
  l.countP (fun e => e.isErrorLine)

/-- A caller-supplied request filter: it mutates the envelope in place
(`mutate`) and whatever value the function call returns (`retVal`) is
discarded by the interactor. -/
structure RequestFilter where
  mutate : RequestEnvelope → RequestEnvelope
  retVal : RequestEnvelope → Option String

/-- Apply an optional request filter to the serialized envelope; absent
filters leave it unchanged. -/
def applyFilter (rf : Option RequestFilter) (env : RequestEnvelope) : RequestEnvelope :=
  match rf with
  | some f => f.mutate env
  | none => env

/-- Abstraction of `JSON.stringify(errorData, null, 2)` on the modelled error
payload; `undefined` stringifies to the text "undefined". -/
def jsonStringify (o : Option String) : String :=
  match o with
  | some s => s
  | none => "undefined"

/-- The invocation boundary: the abstract collaborator's asynchronous
`invoke(requestEnvelope)`; `Except.error` is promise rejection and
`Except.ok none` is resolution with a null/undefined payload. -/
def Invoker : Type :=
  RequestEnvelope → Except String (Option SkillResponse)

/-- Everything observable about one pass through `callSkill`: the context the
envelope was serialized from, the serialized envelope, the envelope the
invocation boundary received, the final context, the asynchronous outcome and
the console trace. -/
structure CallResult where
  ctxAtDispatch : SkillContext
  serialized : RequestEnvelope
  dispatched : RequestEnvelope
  finalCtx : SkillContext
  outcome : Except String (Option SkillResponse)
  log : List LogEntry

namespace SkillInteractor

/-- Embedding of the session check at the top of `callSkill` (part_000 lines
97-99): create a fresh session at the last possible minute when the request
requires one and none is active. -/
def dispatchContext (ctx : SkillContext) (req : SkillRequest) : SkillContext :=
  if req.requiresSession && !ctx.activeSession then ctx.newSession else ctx

/-- Embedding of the post-await block of `callSkill` (part_000 lines
108-115): when a session is active, mark it used, then end it when the
response says so, otherwise update its attributes from the response.  Reading
`result.sessionAttributes` off a null result raises, which is returned as the
second component. -/
def callSkillPost (ctx : SkillContext) (result : Option SkillResponse) :
    SkillContext × Option String :=
  if ctx.activeSession then
    let ctxU := ctx.sessionUsed
    if respShouldEndSession result then
      (ctxU.endSessionCtx, none)
    else
      match result with
      | none => (ctxU, some "TypeError: cannot read property sessionAttributes of null")
      | some r => (ctxU.updateSessionAttributes r.sessionAttributes, none)
  else
    (ctx, none)

/-- Combined effect of awaiting the invocation and running the post-await
block: a rejected invocation skips the block; a raise inside the block turns
the overall outcome into a rejection while keeping the mutations made before
the raise. -/
def callSkillRun (ctx1 : SkillContext) (inv : Except String (Option SkillResponse)) :
    SkillContext × Except String (Option SkillResponse) :=
  match inv with
  | .error e => (ctx1, .error e)
  | .ok result =>
    match callSkillPost ctx1 result with
    | (c2, none) => (c2, .ok result)
    | (c2, some e) => (c2, .error e)

/-- Embedding of `callSkill` (part_000 lines 92-118): ensure a session,
serialize, apply the optional request filter to the envelope in place, log
`CALLING:` with the (post-filter) request type, invoke the collaborator, then
run the post-await block. -/
def callSkill (invoke : Invoker) (rf : Option RequestFilter) (ctx : SkillContext)
    (serviceRequest : SkillRequest) : CallResult :=
  { ctxAtDispatch := dispatchContext ctx serviceRequest,
    serialized := serviceRequest.toJSON (dispatchContext ctx serviceRequest),
    dispatched := applyFilter rf (serviceRequest.toJSON (dispatchContext ctx serviceRequest)),
    finalCtx := (callSkillRun (dispatchContext ctx serviceRequest)
      (invoke (applyFilter rf (serviceRequest.toJSON (dispatchContext ctx serviceRequest))))).1,
    outcome := (callSkillRun (dispatchContext ctx serviceRequest)
      (invoke (applyFilter rf (serviceRequest.toJSON (dispatchContext ctx serviceRequest))))).2,
    log := [LogEntry.info ("CALLING: " ++ RequestBlock.typeName
      (applyFilter rf (serviceRequest.toJSON (dispatchContext ctx serviceRequest))).request)] }

/-- Embedding of the audio-player guard at the top of `callSkillWithIntent`
(part_000 lines 125-127): suspend the player first when audio player support
is enabled and the player is playing. -/
def suspendForIntent (ctx : SkillContext) : SkillContext :=
  if ctx.audioPlayerEnabled && ctx.audioPlayer.isPlaying then
    { ctx with audioPlayer := ctx.audioPlayer.suspend }
  else
    ctx

/-- Embedding of the intent-request construction in `callSkillWithIntent`
(part_000 lines 131-136): build the intent request and copy the supplied
slots onto it one key at a time; a null/undefined slot map copies nothing. -/
def intentServiceRequest (intentName : String) (slots : Option (List (String × String))) :
    SkillRequest :=
  match slots with
  | some m => m.foldl (fun r p => r.withSlot p.1 p.2) (SkillRequest.make.intentRequest intentName)
  | none => SkillRequest.make.intentRequest intentName

/-- Embedding of `callSkillWithIntent` (part_000 lines 122-139). -/
def callSkillWithIntent (invoke : Invoker) (rf : Option RequestFilter) (ctx : SkillContext)
    (intentName : String) (slots : Option (List (String × String))) : CallResult :=
  callSkill invoke rf (suspendForIntent ctx) (intentServiceRequest intentName slots)

/-- Warning message emitted on the utterance fallback path (part_000 lines
50-51): it is built after `utterance` has been reassigned to the fallback
Utterance, so both interpolations come from the fallback, not from the
original input. -/
def spokenWarnMessage (m : InteractionModel) : String :=
  "No intentName matches utterance: " ++ (Utterance.make m m.defaultPhrase).toStr
    ++ ". Using fallback utterance: " ++ m.defaultPhrase

/-- Embedding of `spoken` (part_000 lines 43-55): match the text; on failure
fall back to the model's default phrase, warn once, and proceed with the
fallback's intent and slots. -/
def spoken (invoke : Invoker) (rf : Option RequestFilter) (ctx : SkillContext)
    (text : String) : CallResult :=
  let u := Utterance.make ctx.model text
  if u.matched then
    callSkillWithIntent invoke rf ctx u.intentName (some u.slotsList)
  else
    let u2 := Utterance.make ctx.model ctx.model.defaultPhrase
    let inner := callSkillWithIntent invoke rf ctx u2.intentName (some u2.slotsList)
    { inner with log := LogEntry.warn (spokenWarnMessage ctx.model) :: inner.log }

/-- Embedding of `launched` (part_000 lines 57-61). -/
def launched (invoke : Invoker) (rf : Option RequestFilter) (ctx : SkillContext) : CallResult :=
  callSkill invoke rf ctx (SkillRequest.make.launchRequest)

/-- Embedding of `sessionEnded` (part_000 lines 63-76): log the error payload
when the reason is ERROR, build and dispatch the session-ended request, and
end the session once the round trip resolves (the `.then` callback does not
run on rejection). -/
def sessionEnded (invoke : Invoker) (rf : Option RequestFilter) (ctx : SkillContext)
    (reason : SessionEndedReason) (errorData : Option String) : CallResult :=
  let errLog : List LogEntry :=
    if reason = SessionEndedReason.error then
      [LogEntry.errorLine ("SessionEndedRequest:\n" ++ jsonStringify errorData)]
    else
      []
  let r := callSkill invoke rf ctx (SkillRequest.make.sessionEndedRequest reason errorData)
  let r2 :=
    match r.outcome with
    | .ok _ => { r with finalCtx := r.finalCtx.endSessionCtx }
    | .error _ => r
  { r2 with log := errLog ++ r2.log }

/-- Embedding of `intended` (part_000 lines 84-90), resolved path: it
delegates to `callSkillWithIntent`; the surrounding try/catch is embedded
separately as `intendedTryCatch`. -/
def intended (invoke : Invoker) (rf : Option RequestFilter) (ctx : SkillContext)
    (intentName : String) (slots : Option (List (String × String))) : CallResult :=
  callSkillWithIntent invoke rf ctx intentName slots

end SkillInteractor

/-- Outcome of calling a function in the source language: either it throws
synchronously, or it returns a promise that later resolves or rejects. -/
inductive JsOutcome (α : Type) where
  | thrown (e : String)
  | promise (r : Except String α)

/-- Test for a synchronous throw. -/
def JsOutcome.isThrown {α : Type} : JsOutcome α → Bool
  | .thrown _ => true
  | .promise _ => false

/-- Embedding of the try/catch wrapper of `intended` (part_000 lines 84-90):
an inner call that throws synchronously is converted into a rejected promise;
a returned promise passes through untouched. -/
def SkillInteractor.intendedTryCatch {α : Type} (inner : JsOutcome α) : JsOutcome α :=
  match inner with
  | .thrown e => .promise (Except.error e)
  | .promise r => .promise r

/-- Concrete interaction model used by witnesses: two intents and the default
phrase "help". -/
def demoModel : InteractionModel :=
  { matchFn := fun t =>
      if t = "hello" then some ("HelloIntent", [])
      else if t = "help" then some ("HelpIntent", [("assist", "yes")])
      else none,
    defaultPhrase := "help" }

/-- Concrete idle audio player used by witnesses. -/
def demoPlayer : AudioPlayer :=
  { state := .idle, item := none, offset := 0 }

/-- Concrete skill context with an active fresh session, used by witnesses. -/
def demoCtx : SkillContext :=
  { session := some { id := 0, attributes := [], isNew := true, isActive := true },
    audioPlayer := demoPlayer,
    audioPlayerEnabled := true,
    applicationID := "amzn1.ask.skill.demo",
    nextSessionId := 1,
    model := demoModel }

/-- Concrete skill context with no session, used by witnesses. -/
def demoCtxNoSession : SkillContext :=
  { demoCtx with session := none, nextSessionId := 5 }

/-- Concrete skill context whose audio player is playing while audio player
support is disabled; used by the counterexample to claim C2. -/
def playingDisabledCtx : SkillContext :=
  { demoCtx with
      audioPlayerEnabled := false,
      audioPlayer := { state := .playing, item := some "track-1", offset := 10 } }

/-- Concrete invoker used by witnesses: resolves with a well-formed response
that keeps the session open. -/
def demoInvoke : Invoker :=
  fun _ => Except.ok (some { response := some { shouldEndSession := false },
                             sessionAttributes := none })

/-- Concrete invoker used by witnesses: resolves with a response asking to end
the session. -/
def demoInvokeEnd : Invoker :=
  fun _ => Except.ok (some { response := some { shouldEndSession := true },
                             sessionAttributes := none })

/-- Concrete skill context whose audio player is playing with audio player
support enabled; used by witnesses. -/
def playingEnabledCtx : SkillContext :=
  { demoCtx with
      audioPlayerEnabled := true,
      audioPlayer := { state := .playing, item := some "track-1", offset := 10 } }

/-- Query the `isNew` flag of the context's Session; false when no Session
exists. -/
def SkillContext.sessionIsNew (c : SkillContext) : Bool :=
  match c.session with
  | some s => s.isNew
  | none => false

/-- Concrete well-formed response payload used by witnesses. -/
def demoResponse : SkillResponse :=
  { response := some { shouldEndSession := false }, sessionAttributes := none }

/-- Concrete request filter used by witnesses: tampers with the version tag
and returns a value the interactor must discard. -/
def demoFilterF : RequestFilter :=
  { mutate := fun e => { e with version := "tampered" },
    retVal := fun _ => some "ignored return value" }

/-- Concrete request filter used by witnesses: same mutation as `demoFilterF`
with a different (also discarded) return value. -/
def demoFilterG : RequestFilter :=
  { mutate := fun e => { e with version := "tampered" },
    retVal := fun _ => none }

theorem AudioPlayer.suspend_not_playing (p : AudioPlayer) : p.suspend.isPlaying = false := by
  rcases p with ⟨st, it, off⟩
  cases st <;> rfl

theorem SkillContext.newSession_active (c : SkillContext) :
    c.newSession.activeSession = true := by
  simp [SkillContext.newSession, SkillContext.activeSession]

theorem SkillInteractor.dispatchContext_active (c : SkillContext) (req : SkillRequest) :
    (SkillInteractor.dispatchContext c req).activeSession = true := by
  unfold SkillInteractor.dispatchContext
  cases h : c.activeSession with
  | true => simp [h]
  | false => simp [h, SkillRequest.requiresSession, SkillContext.newSession_active]

theorem SkillInteractor.dispatchContext_audioPlayer (c : SkillContext) (req : SkillRequest) :
    (SkillInteractor.dispatchContext c req).audioPlayer = c.audioPlayer := by
  unfold SkillInteractor.dispatchContext
  split <;> simp [SkillContext.newSession]

theorem SkillInteractor.callSkillPost_audioPlayer (c : SkillContext)
    (result : Option SkillResponse) :
    (SkillInteractor.callSkillPost c result).1.audioPlayer = c.audioPlayer := by
  unfold SkillInteractor.callSkillPost
  split
  · split
    · simp [SkillContext.endSessionCtx, SkillContext.sessionUsed]
    · cases result with
      | none => simp [SkillContext.sessionUsed]
      | some r => simp [SkillContext.sessionUsed, SkillContext.updateSessionAttributes]
  · rfl

theorem SkillInteractor.callSkillRun_audioPlayer (c : SkillContext)
    (inv : Except String (Option SkillResponse)) :
    (SkillInteractor.callSkillRun c inv).1.audioPlayer = c.audioPlayer := by
  unfold SkillInteractor.callSkillRun
  cases inv with
  | error e => rfl
  | ok result =>
    have h := SkillInteractor.callSkillPost_audioPlayer c result
    rcases hp : SkillInteractor.callSkillPost c result with ⟨c2, oe⟩
    rw [hp] at h
    cases oe <;> simpa [hp] using h

theorem SkillInteractor.callSkill_log (invoke : Invoker) (rf : Option RequestFilter)
    (ctx : SkillContext) (req : SkillRequest) :
    (SkillInteractor.callSkill invoke rf ctx req).log
      = [LogEntry.info ("CALLING: " ++ RequestBlock.typeName
          (SkillInteractor.callSkill invoke rf ctx req).dispatched.request)] := rfl

theorem SkillInteractor.suspendForIntent_audioPlayer (c : SkillContext) :
    (SkillInteractor.suspendForIntent c).audioPlayer
      = (if c.audioPlayerEnabled && c.audioPlayer.isPlaying then c.audioPlayer.suspend
         else c.audioPlayer) := by
  unfold SkillInteractor.suspendForIntent
  split <;> simp_all

theorem SkillInteractor.sessionEnded_ctxAtDispatch (invoke : Invoker) (rf : Option RequestFilter)
    (ctx : SkillContext) (reason : SessionEndedReason) (ed : Option String) :
    (SkillInteractor.sessionEnded invoke rf ctx reason ed).ctxAtDispatch
      = SkillInteractor.dispatchContext ctx (SkillRequest.make.sessionEndedRequest reason ed) := by
  unfold SkillInteractor.sessionEnded
  cases h : (SkillInteractor.callSkill invoke rf ctx
      (SkillRequest.make.sessionEndedRequest reason ed)).outcome <;>
    simp [h] <;> rfl

theorem SkillInteractor.sessionEnded_serialized (invoke : Invoker) (rf : Option RequestFilter)
    (ctx : SkillContext) (reason : SessionEndedReason) (ed : Option String) :
    (SkillInteractor.sessionEnded invoke rf ctx reason ed).serialized
      = (SkillInteractor.callSkill invoke rf ctx
          (SkillRequest.make.sessionEndedRequest reason ed)).serialized := by
  unfold SkillInteractor.sessionEnded
  cases h : (SkillInteractor.callSkill invoke rf ctx
      (SkillRequest.make.sessionEndedRequest reason ed)).outcome <;>
    simp [h]

theorem SkillInteractor.sessionEnded_dispatched (invoke : Invoker) (rf : Option RequestFilter)
    (ctx : SkillContext) (reason : SessionEndedReason) (ed : Option String) :
    (SkillInteractor.sessionEnded invoke rf ctx reason ed).dispatched
      = (SkillInteractor.callSkill invoke rf ctx
          (SkillRequest.make.sessionEndedRequest reason ed)).dispatched := by
  unfold SkillInteractor.sessionEnded
  cases h : (SkillInteractor.callSkill invoke rf ctx
      (SkillRequest.make.sessionEndedRequest reason ed)).outcome <;>
    simp [h]

theorem SkillInteractor.sessionEnded_outcome (invoke : Invoker) (rf : Option RequestFilter)
    (ctx : SkillContext) (reason : SessionEndedReason) (ed : Option String) :
    (SkillInteractor.sessionEnded invoke rf ctx reason ed).outcome
      = (SkillInteractor.callSkill invoke rf ctx
          (SkillRequest.make.sessionEndedRequest reason ed)).outcome := by
  unfold SkillInteractor.sessionEnded
  cases h : (SkillInteractor.callSkill invoke rf ctx
      (SkillRequest.make.sessionEndedRequest reason ed)).outcome <;>
    simp [h]

theorem SkillInteractor.sessionEnded_log (invoke : Invoker) (rf : Option RequestFilter)
    (ctx : SkillContext) (reason : SessionEndedReason) (ed : Option String) :
    (SkillInteractor.sessionEnded invoke rf ctx reason ed).log
      = (if reason = SessionEndedReason.error then
           [LogEntry.errorLine ("SessionEndedRequest:\n" ++ jsonStringify ed)]
         else [])
        ++ (SkillInteractor.callSkill invoke rf ctx
              (SkillRequest.make.sessionEndedRequest reason ed)).log := by
  unfold SkillInteractor.sessionEnded
  cases h : (SkillInteractor.callSkill invoke rf ctx
      (SkillRequest.make.sessionEndedRequest reason ed)).outcome <;>
    simp [h]

theorem SkillInteractor.sessionEnded_finalCtx_ok (invoke : Invoker) (rf : Option RequestFilter)
    (ctx : SkillContext) (reason : SessionEndedReason) (ed : Option String)
    (result : Option SkillResponse)
    (h : (SkillInteractor.callSkill invoke rf ctx
        (SkillRequest.make.sessionEndedRequest reason ed)).outcome = Except.ok result) :
    (SkillInteractor.sessionEnded invoke rf ctx reason ed).finalCtx
      = (SkillInteractor.callSkill invoke rf ctx
          (SkillRequest.make.sessionEndedRequest reason ed)).finalCtx.endSessionCtx := by
  unfold SkillInteractor.sessionEnded
  simp [h]

theorem SkillInteractor.sessionEnded_finalCtx_error (invoke : Invoker) (rf : Option RequestFilter)
    (ctx : SkillContext) (reason : SessionEndedReason) (ed : Option String) (e : String)
    (h : (SkillInteractor.callSkill invoke rf ctx
        (SkillRequest.make.sessionEndedRequest reason ed)).outcome = Except.error e) :
    (SkillInteractor.sessionEnded invoke rf ctx reason ed).finalCtx
      = (SkillInteractor.callSkill invoke rf ctx
          (SkillRequest.make.sessionEndedRequest reason ed)).finalCtx := by
  unfold SkillInteractor.sessionEnded
  simp [h]

theorem SkillContext.endSessionCtx_not_active (c : SkillContext) :
    c.endSessionCtx.activeSession = false := by
  unfold SkillContext.endSessionCtx SkillContext.activeSession
  cases c.session <;> simp

/-- C1: for every public operation, if the built request requires a session
and no session is active, `callSkill` creates a fresh Session immediately
before serializing and dispatching, and the envelope is serialized from that
dispatch-time context; consequently no session-requiring request is ever
dispatched while the Session's `isActive` flag is false — in particular every
public operation dispatches from a context with an active session. -/
theorem claim1_session_active_at_dispatch (invoke : Invoker) (rf : Option RequestFilter)
    (ctx : SkillContext) (req : SkillRequest) :
    (req.requiresSession = true →
       (SkillInteractor.callSkill invoke rf ctx req).ctxAtDispatch.activeSession = true
       ∧ (ctx.activeSession = false →
            (SkillInteractor.callSkill invoke rf ctx req).ctxAtDispatch = ctx.newSession)
       ∧ (SkillInteractor.callSkill invoke rf ctx req).serialized
           = req.toJSON (SkillInteractor.callSkill invoke rf ctx req).ctxAtDispatch)
    ∧ (∀ text, (SkillInteractor.spoken invoke rf ctx text).ctxAtDispatch.activeSession = true)
    ∧ (∀ n s, (SkillInteractor.intended invoke rf ctx n s).ctxAtDispatch.activeSession = true)
    ∧ (SkillInteractor.launched invoke rf ctx).ctxAtDispatch.activeSession = true
    ∧ (∀ reason ed,
        (SkillInteractor.sessionEnded invoke rf ctx reason ed).ctxAtDispatch.activeSession
          = true) := by
  refine ⟨fun _ => ⟨?_, fun hne => ?_, rfl⟩, fun text => ?_, fun n s => ?_, ?_, fun reason ed => ?_⟩
  · exact SkillInteractor.dispatchContext_active ctx req
  · show SkillInteractor.dispatchContext ctx req = ctx.newSession
    unfold SkillInteractor.dispatchContext
    simp [hne, SkillRequest.requiresSession]
  · simp only [SkillInteractor.spoken]
    split
    · exact SkillInteractor.dispatchContext_active _ _
    · exact SkillInteractor.dispatchContext_active _ _
  · exact SkillInteractor.dispatchContext_active _ _
  · exact SkillInteractor.dispatchContext_active _ _
  · rw [SkillInteractor.sessionEnded_ctxAtDispatch]
    exact SkillInteractor.dispatchContext_active _ _

/-- C1 witness: with no active session, launching creates a fresh active
session before dispatch. -/
theorem claim1_witness :
    (SkillInteractor.callSkill demoInvoke none demoCtxNoSession
        SkillRequest.make.launchRequest).ctxAtDispatch.activeSession = true
    ∧ (SkillInteractor.callSkill demoInvoke none demoCtxNoSession
        SkillRequest.make.launchRequest).ctxAtDispatch = demoCtxNoSession.newSession := by
  have h := (claim1_session_active_at_dispatch demoInvoke none demoCtxNoSession
    SkillRequest.make.launchRequest).1 rfl
  exact ⟨h.1, h.2.1 rfl⟩

/-- C2 counterexample: with audio player support disabled and the player in
the PLAYING state, an intent-triggered call builds and dispatches the intent
request while the player is still PLAYING — the claim's unconditional "the
player is never PLAYING at the moment an intent request is built" is false on
the code, which guards suspension behind `audioPlayerEnabled()`. -/
theorem claim2_counterexample :
    (SkillInteractor.callSkillWithIntent demoInvoke none playingDisabledCtx
        "HelloIntent" none).serialized.request
      = some (RequestBlock.intent "HelloIntent" [])
    ∧ (SkillInteractor.callSkillWithIntent demoInvoke none playingDisabledCtx
        "HelloIntent" none).ctxAtDispatch.audioPlayer.isPlaying = true := by
  constructor <;> rfl

/-- C2 amended: when the Skill Context reports audio player support enabled,
the Audio Player is forced out of PLAYING (suspension, when it is playing)
before the intent request envelope is built, so the player is never PLAYING
at the moment an intent request is built. -/
theorem claim2_amended_suspend_before_build (invoke : Invoker) (rf : Option RequestFilter)
    (ctx : SkillContext) (intentName : String) (slots : Option (List (String × String)))
    (hen : ctx.audioPlayerEnabled = true) :
    (SkillInteractor.callSkillWithIntent invoke rf ctx intentName
        slots).ctxAtDispatch.audioPlayer.isPlaying = false
    ∧ (SkillInteractor.callSkillWithIntent invoke rf ctx intentName
        slots).ctxAtDispatch.audioPlayer
      = (if ctx.audioPlayer.isPlaying then ctx.audioPlayer.suspend else ctx.audioPlayer) := by
  have hp : (SkillInteractor.callSkillWithIntent invoke rf ctx intentName
      slots).ctxAtDispatch.audioPlayer = (SkillInteractor.suspendForIntent ctx).audioPlayer :=
    SkillInteractor.dispatchContext_audioPlayer _ _
  rw [hp, SkillInteractor.suspendForIntent_audioPlayer, hen]
  constructor
  · cases h : ctx.audioPlayer.isPlaying with
    | true => simp [h, AudioPlayer.suspend_not_playing]
    | false => simp [h]
  · simp

/-- C2 amended witness: with support enabled and the player playing, the
player is suspended before the intent envelope is built. -/
theorem claim2_amended_witness :
    playingEnabledCtx.audioPlayerEnabled = true
    ∧ (SkillInteractor.callSkillWithIntent demoInvoke none playingEnabledCtx
        "HelloIntent" none).ctxAtDispatch.audioPlayer.isPlaying = false :=
  ⟨rfl, (claim2_amended_suspend_before_build demoInvoke none playingEnabledCtx
    "HelloIntent" none rfl).1⟩

/-- C10: an intent-triggered call changes the Audio Player exactly by
suspending it when audio player support is enabled and the player is playing;
whenever support is disabled or the player is not playing, the Audio Player
is left entirely unchanged (suspension from a non-playing state is itself a
no-op). -/
theorem claim10_audio_player_frame (invoke : Invoker) (rf : Option RequestFilter)
    (ctx : SkillContext) (intentName : String) (slots : Option (List (String × String))) :
    (SkillInteractor.callSkillWithIntent invoke rf ctx intentName slots).finalCtx.audioPlayer
      = (if ctx.audioPlayerEnabled && ctx.audioPlayer.isPlaying then ctx.audioPlayer.suspend
         else ctx.audioPlayer) := by
  have h1 : (SkillInteractor.callSkillWithIntent invoke rf ctx intentName
      slots).finalCtx.audioPlayer
      = (SkillInteractor.dispatchContext (SkillInteractor.suspendForIntent ctx)
          (SkillInteractor.intentServiceRequest intentName slots)).audioPlayer :=
    SkillInteractor.callSkillRun_audioPlayer _ _
  rw [h1, SkillInteractor.dispatchContext_audioPlayer,
    SkillInteractor.suspendForIntent_audioPlayer]

theorem SkillInteractor.warnCount_callSkill (invoke : Invoker) (rf : Option RequestFilter)
    (ctx : SkillContext) (req : SkillRequest) :
    warnCount (SkillInteractor.callSkill invoke rf ctx req).log = 0 := rfl

theorem SkillInteractor.errorCount_callSkill (invoke : Invoker) (rf : Option RequestFilter)
    (ctx : SkillContext) (req : SkillRequest) :
    errorCount (SkillInteractor.callSkill invoke rf ctx req).log = 0 := rfl

theorem SkillContext.sessionUsed_active (c : SkillContext) :
    c.sessionUsed.activeSession = c.activeSession := by
  unfold SkillContext.sessionUsed SkillContext.activeSession
  cases c.session <;> simp [Session.used]

theorem SkillContext.updateSessionAttributes_active (c : SkillContext)
    (attrs : Option (List (String × String))) :
    (c.updateSessionAttributes attrs).activeSession = c.activeSession := by
  unfold SkillContext.updateSessionAttributes SkillContext.activeSession
  cases c.session with
  | none => simp
  | some s => cases attrs <;> simp [Session.updateAttributes]

theorem SkillContext.sessionUsed_not_new (c : SkillContext) :
    c.sessionUsed.sessionIsNew = false := by
  unfold SkillContext.sessionUsed SkillContext.sessionIsNew
  cases c.session <;> simp [Session.used]

theorem SkillContext.endSessionCtx_sessionIsNew (c : SkillContext) :
    c.endSessionCtx.sessionIsNew = c.sessionIsNew := by
  unfold SkillContext.endSessionCtx SkillContext.sessionIsNew
  cases c.session <;> simp

theorem SkillContext.updateSessionAttributes_sessionIsNew (c : SkillContext)
    (attrs : Option (List (String × String))) :
    (c.updateSessionAttributes attrs).sessionIsNew = c.sessionIsNew := by
  unfold SkillContext.updateSessionAttributes SkillContext.sessionIsNew
  cases c.session with
  | none => simp
  | some s => cases attrs <;> simp [Session.updateAttributes]

theorem SkillInteractor.callSkillRun_ok (c : SkillContext)
    (inv : Except String (Option SkillResponse)) (r : Option SkillResponse)
    (h : (SkillInteractor.callSkillRun c inv).2 = Except.ok r) :
    (SkillInteractor.callSkillRun c inv).1 = (SkillInteractor.callSkillPost c r).1 := by
  unfold SkillInteractor.callSkillRun at h ⊢
  cases inv with
  | error e => simp at h
  | ok result =>
    dsimp only at h ⊢
    split at h
    next c2 heq =>
      obtain rfl : result = r := by simpa using h
      simp [heq]
    next c2 e heq =>
      simp at h

/-- C3: `sessionEnded(reason, errorData)` builds and dispatches a
session-ended request; it terminates the Session exactly when the round trip
resolves (the termination is skipped on a rejected round trip), and it
terminates it unconditionally — whatever response payload the invocation
resolved with, the final context's session is inactive. -/
theorem claim3_session_ended_terminates (invoke : Invoker) (rf : Option RequestFilter)
    (ctx : SkillContext) (reason : SessionEndedReason) (ed : Option String) :
    (SkillInteractor.sessionEnded invoke rf ctx reason ed).serialized.request
      = some (RequestBlock.sessionEnded reason ed)
    ∧ (∀ result : Option SkillResponse,
        (SkillInteractor.sessionEnded invoke rf ctx reason ed).outcome = Except.ok result →
        (SkillInteractor.sessionEnded invoke rf ctx reason ed).finalCtx
          = (SkillInteractor.callSkill invoke rf ctx
              (SkillRequest.make.sessionEndedRequest reason ed)).finalCtx.endSessionCtx
        ∧ (SkillInteractor.sessionEnded invoke rf ctx reason ed).finalCtx.activeSession
            = false)
    ∧ (∀ e : String,
        (SkillInteractor.sessionEnded invoke rf ctx reason ed).outcome = Except.error e →
        (SkillInteractor.sessionEnded invoke rf ctx reason ed).finalCtx
          = (SkillInteractor.callSkill invoke rf ctx
              (SkillRequest.make.sessionEndedRequest reason ed)).finalCtx) := by
  refine ⟨?_, fun result hok => ?_, fun e herr => ?_⟩
  · rw [SkillInteractor.sessionEnded_serialized]
    rfl
  · rw [SkillInteractor.sessionEnded_outcome] at hok
    have hfc := SkillInteractor.sessionEnded_finalCtx_ok invoke rf ctx reason ed result hok
    refine ⟨hfc, ?_⟩
    rw [hfc]
    exact SkillContext.endSessionCtx_not_active _
  · rw [SkillInteractor.sessionEnded_outcome] at herr
    exact SkillInteractor.sessionEnded_finalCtx_error invoke rf ctx reason ed e herr

/-- C3 witness: on a user-initiated termination with a resolving collaborator,
the session is inactive afterwards. -/
theorem claim3_witness :
    (SkillInteractor.sessionEnded demoInvoke none demoCtx
        SessionEndedReason.userInitiated none).outcome = Except.ok (some demoResponse)
    ∧ (SkillInteractor.sessionEnded demoInvoke none demoCtx
        SessionEndedReason.userInitiated none).finalCtx.activeSession = false := by
  have h : (SkillInteractor.sessionEnded demoInvoke none demoCtx
      SessionEndedReason.userInitiated none).outcome = Except.ok (some demoResponse) := by
    rw [SkillInteractor.sessionEnded_outcome]
    rfl
  exact ⟨h, ((claim3_session_ended_terminates demoInvoke none demoCtx
    SessionEndedReason.userInitiated none).2.1 (some demoResponse) h).2⟩

/-- C8: logging the error payload on an ERROR-reason termination does not
alter the request that is built and sent: the serialized envelope for an
ERROR termination is the envelope of any other termination with the same
payload with only the reason field overwritten (likewise what is dispatched
when no filter intervenes), and exactly one diagnostic error line is emitted
for the ERROR reason and none otherwise. -/
theorem claim8_error_logging_leaves_dispatch (invoke : Invoker) (rf : Option RequestFilter)
    (ctx : SkillContext) (reason : SessionEndedReason) (ed : Option String) :
    (SkillInteractor.sessionEnded invoke rf ctx SessionEndedReason.error ed).serialized
      = RequestEnvelope.setSessionEndedReason
          ((SkillInteractor.sessionEnded invoke rf ctx reason ed).serialized)
          SessionEndedReason.error
    ∧ (SkillInteractor.sessionEnded invoke none ctx SessionEndedReason.error ed).dispatched
      = RequestEnvelope.setSessionEndedReason
          ((SkillInteractor.sessionEnded invoke none ctx reason ed).dispatched)
          SessionEndedReason.error
    ∧ errorCount (SkillInteractor.sessionEnded invoke rf ctx reason ed).log
      = (if reason = SessionEndedReason.error then 1 else 0) := by
  refine ⟨?_, ?_, ?_⟩
  · rw [SkillInteractor.sessionEnded_serialized, SkillInteractor.sessionEnded_serialized]
    rfl
  · rw [SkillInteractor.sessionEnded_dispatched, SkillInteractor.sessionEnded_dispatched]
    rfl
  · rw [SkillInteractor.sessionEnded_log]
    by_cases hr : reason = SessionEndedReason.error
    · simp [hr, errorCount, List.countP_append, LogEntry.isErrorLine,
        SkillInteractor.callSkill, List.countP_cons, List.countP_nil]
    · simp [hr, errorCount, List.countP_append, LogEntry.isErrorLine,
        SkillInteractor.callSkill, List.countP_cons, List.countP_nil]

/-- C6: after a round trip that resolved with a response object, when the
session is still active at that moment the post-await block first marks it
used (clearing `isNew`), then ends it exactly when the response's
`shouldEndSession` flag is truthy and otherwise applies the attribute-update
policy with the response's session-attributes mapping; when no session is
active at that moment nothing is updated.  The final context of `callSkill`
on a resolving round trip is exactly this block applied to the dispatch-time
context. -/
theorem claim6_post_round_trip_updates (ctx : SkillContext) (resp : SkillResponse) :
    (ctx.activeSession = true →
       SkillInteractor.callSkillPost ctx (some resp)
         = (if respShouldEndSession (some resp) then (ctx.sessionUsed.endSessionCtx, none)
            else (ctx.sessionUsed.updateSessionAttributes resp.sessionAttributes, none)))
    ∧ (ctx.activeSession = true →
        (SkillInteractor.callSkillPost ctx (some resp)).1.sessionIsNew = false)
    ∧ (ctx.activeSession = true →
        ((SkillInteractor.callSkillPost ctx (some resp)).1.activeSession = false
          ↔ respShouldEndSession (some resp) = true))
    ∧ (∀ result : Option SkillResponse, ctx.activeSession = false →
        SkillInteractor.callSkillPost ctx result = (ctx, none))
    ∧ (∀ (invoke : Invoker) (rf : Option RequestFilter) (req : SkillRequest)
         (result : Option SkillResponse),
        (SkillInteractor.callSkill invoke rf ctx req).outcome = Except.ok result →
        (SkillInteractor.callSkill invoke rf ctx req).finalCtx
          = (SkillInteractor.callSkillPost
              (SkillInteractor.callSkill invoke rf ctx req).ctxAtDispatch result).1) := by
  have hmain : ctx.activeSession = true →
      SkillInteractor.callSkillPost ctx (some resp)
        = (if respShouldEndSession (some resp) then (ctx.sessionUsed.endSessionCtx, none)
           else (ctx.sessionUsed.updateSessionAttributes resp.sessionAttributes, none)) := by
    intro ha
    unfold SkillInteractor.callSkillPost
    simp [ha]
  refine ⟨hmain, fun ha => ?_, fun ha => ?_, fun result hna => ?_, fun invoke rf req result hok => ?_⟩
  · rw [hmain ha]
    by_cases hend : respShouldEndSession (some resp) = true
    · simp [hend, SkillContext.endSessionCtx_sessionIsNew, SkillContext.sessionUsed_not_new ctx]
    · simp only [Bool.not_eq_true] at hend
      simp [hend, SkillContext.updateSessionAttributes_sessionIsNew,
        SkillContext.sessionUsed_not_new ctx]
  · rw [hmain ha]
    by_cases hend : respShouldEndSession (some resp) = true
    · simp [hend, SkillContext.endSessionCtx_not_active]
    · simp only [Bool.not_eq_true] at hend
      simp [hend, SkillContext.updateSessionAttributes_active, SkillContext.sessionUsed_active, ha]
  · unfold SkillInteractor.callSkillPost
    simp [hna]
  · exact SkillInteractor.callSkillRun_ok _ _ _ hok

/-- C6 witness: a launch round trip on an active session with a non-ending
response leaves the final context equal to the post-await block's result. -/
theorem claim6_witness :
    demoCtx.activeSession = true
    ∧ (SkillInteractor.callSkill demoInvoke none demoCtx
        SkillRequest.make.launchRequest).outcome = Except.ok (some demoResponse)
    ∧ (SkillInteractor.callSkill demoInvoke none demoCtx
        SkillRequest.make.launchRequest).finalCtx
      = (SkillInteractor.callSkillPost
          (SkillInteractor.callSkill demoInvoke none demoCtx
            SkillRequest.make.launchRequest).ctxAtDispatch (some demoResponse)).1
    ∧ SkillInteractor.callSkillPost demoCtx (some demoResponse)
      = (demoCtx.sessionUsed.updateSessionAttributes demoResponse.sessionAttributes, none) := by
  have hok : (SkillInteractor.callSkill demoInvoke none demoCtx
      SkillRequest.make.launchRequest).outcome = Except.ok (some demoResponse) := rfl
  have h := claim6_post_round_trip_updates demoCtx demoResponse
  refine ⟨rfl, hok, h.2.2.2.2 demoInvoke none SkillRequest.make.launchRequest
    (some demoResponse) hok, ?_⟩
  rw [h.1 rfl]
  rfl

/-- C7: the caller-supplied request filter is applied to the serialized
envelope after serialization and immediately before invoking the
collaborator — what the invocation boundary receives is exactly the filter's
mutation of the serialized envelope — and the filter's return value is
discarded: two filters with the same mutation produce identical call results
whatever their return values. -/
theorem claim7_request_filter_fidelity (invoke : Invoker) (ctx : SkillContext)
    (req : SkillRequest) (f g : RequestFilter) :
    (SkillInteractor.callSkill invoke (some f) ctx req).dispatched
      = f.mutate (SkillInteractor.callSkill invoke (some f) ctx req).serialized
    ∧ (SkillInteractor.callSkill invoke (some f) ctx req).outcome
      = (SkillInteractor.callSkillRun
          (SkillInteractor.callSkill invoke (some f) ctx req).ctxAtDispatch
          (invoke ((SkillInteractor.callSkill invoke (some f) ctx req).dispatched))).2
    ∧ (f.mutate = g.mutate →
        SkillInteractor.callSkill invoke (some f) ctx req
          = SkillInteractor.callSkill invoke (some g) ctx req) := by
  refine ⟨rfl, rfl, fun hm => ?_⟩
  simp [SkillInteractor.callSkill, applyFilter, hm]

/-- C7 witness: a filter that tampers with the version tag is reflected
verbatim in the dispatched envelope, and changing only its discarded return
value changes nothing. -/
theorem claim7_witness :
    (SkillInteractor.callSkill demoInvoke (some demoFilterF) demoCtx
        SkillRequest.make.launchRequest).dispatched
      = demoFilterF.mutate (SkillInteractor.callSkill demoInvoke (some demoFilterF) demoCtx
          SkillRequest.make.launchRequest).serialized
    ∧ SkillInteractor.callSkill demoInvoke (some demoFilterF) demoCtx
        SkillRequest.make.launchRequest
      = SkillInteractor.callSkill demoInvoke (some demoFilterG) demoCtx
          SkillRequest.make.launchRequest := by
  have h := claim7_request_filter_fidelity demoInvoke demoCtx SkillRequest.make.launchRequest
    demoFilterF demoFilterG
  exact ⟨h.1, h.2.2 rfl⟩

/-- C4: when utterance matching fails on the input text, `spoken` logs
exactly one warning and otherwise behaves exactly as the intent call for the
intent and slot values that the model's designated default phrase resolves
to; no error is raised. -/
theorem claim4_spoken_fallback (invoke : Invoker) (rf : Option RequestFilter)
    (ctx : SkillContext) (text : String) (i : String) (s : List (String × String))
    (hmiss : ctx.model.matchFn text = none)
    (hdef : ctx.model.matchFn ctx.model.defaultPhrase = some (i, s)) :
    warnCount (SkillInteractor.spoken invoke rf ctx text).log = 1
    ∧ SkillInteractor.spoken invoke rf ctx text
      = { SkillInteractor.callSkillWithIntent invoke rf ctx i (some s) with
          log := LogEntry.warn (SkillInteractor.spokenWarnMessage ctx.model)
            :: (SkillInteractor.callSkillWithIntent invoke rf ctx i (some s)).log } := by
  have hu : (Utterance.make ctx.model text).matched = false := by
    simp [Utterance.make, Utterance.matched, hmiss]
  have h2i : (Utterance.make ctx.model ctx.model.defaultPhrase).intentName = i := by
    simp [Utterance.make, Utterance.intentName, hdef]
  have h2s : (Utterance.make ctx.model ctx.model.defaultPhrase).slotsList = s := by
    simp [Utterance.make, Utterance.slotsList, hdef]
  have hsp : SkillInteractor.spoken invoke rf ctx text
      = { SkillInteractor.callSkillWithIntent invoke rf ctx i (some s) with
          log := LogEntry.warn (SkillInteractor.spokenWarnMessage ctx.model)
            :: (SkillInteractor.callSkillWithIntent invoke rf ctx i (some s)).log } := by
    simp only [SkillInteractor.spoken, hu, Bool.false_eq_true, if_false, h2i, h2s]
  refine ⟨?_, hsp⟩
  rw [hsp]
  show warnCount (LogEntry.warn (SkillInteractor.spokenWarnMessage ctx.model)
    :: (SkillInteractor.callSkillWithIntent invoke rf ctx i (some s)).log) = 1
  have hw : warnCount (SkillInteractor.callSkillWithIntent invoke rf ctx i (some s)).log = 0 :=
    SkillInteractor.warnCount_callSkill _ _ _ _
  simp [warnCount, List.countP_cons, LogEntry.isWarn] at hw ⊢
  simpa [warnCount] using hw

/-- C4 witness: "xyzzy" matches nothing in the demo model; the default phrase
"help" resolves to HelpIntent, and exactly one warning is logged. -/
theorem claim4_witness :
    demoModel.matchFn "xyzzy" = none
    ∧ demoModel.matchFn demoModel.defaultPhrase = some ("HelpIntent", [("assist", "yes")])
    ∧ warnCount (SkillInteractor.spoken demoInvoke none demoCtx "xyzzy").log = 1 := by
  refine ⟨by decide, by decide, ?_⟩
  exact (claim4_spoken_fallback demoInvoke none demoCtx "xyzzy" "HelpIntent"
    [("assist", "yes")] (by decide) (by decide)).1

/-- C9: the fallback warning of `spoken` is built after the utterance
variable has been reassigned to the fallback utterance: the message
interpolates the fallback utterance's string form and the default phrase (the
fallback utterance twice), and the whole observable behavior of `spoken` on
unmatched input — message included — is independent of the original input
text. -/
theorem claim9_warning_uses_fallback (invoke : Invoker) (rf : Option RequestFilter)
    (ctx : SkillContext) (t1 t2 : String)
    (h1 : ctx.model.matchFn t1 = none) (h2 : ctx.model.matchFn t2 = none) :
    (SkillInteractor.spoken invoke rf ctx t1).log.head?
      = some (LogEntry.warn ("No intentName matches utterance: "
          ++ (Utterance.make ctx.model ctx.model.defaultPhrase).toStr
          ++ ". Using fallback utterance: " ++ ctx.model.defaultPhrase))
    ∧ (Utterance.make ctx.model ctx.model.defaultPhrase).toStr = ctx.model.defaultPhrase
    ∧ SkillInteractor.spoken invoke rf ctx t1 = SkillInteractor.spoken invoke rf ctx t2 := by
  have hu1 : (Utterance.make ctx.model t1).matched = false := by
    simp [Utterance.make, Utterance.matched, h1]
  have hu2 : (Utterance.make ctx.model t2).matched = false := by
    simp [Utterance.make, Utterance.matched, h2]
  refine ⟨?_, rfl, ?_⟩
  · simp only [SkillInteractor.spoken, hu1, Bool.false_eq_true, if_false]
    rfl
  · simp only [SkillInteractor.spoken, hu1, hu2, Bool.false_eq_true, if_false]

/-- C9 witness: two different unmatched inputs produce the same call result,
whose first log entry is the fallback warning naming the default phrase
twice. -/
theorem claim9_witness :
    (SkillInteractor.spoken demoInvoke none demoCtx "xyzzy").log.head?
      = some (LogEntry.warn ("No intentName matches utterance: help"
          ++ ". Using fallback utterance: " ++ "help"))
    ∧ SkillInteractor.spoken demoInvoke none demoCtx "xyzzy"
      = SkillInteractor.spoken demoInvoke none demoCtx "qwerty" := by
  have h := claim9_warning_uses_fallback demoInvoke none demoCtx "xyzzy" "qwerty"
    (by decide) (by decide)
  exact ⟨h.1, h.2.2⟩

/-- C5: the try/catch wrapper of `intended` converts any synchronous throw
from the construction-and-dispatch path into a rejected promise, and passes a
returned promise through unchanged — `intended` never lets a synchronous
fault escape. -/
theorem claim5_intended_catches_sync_faults (inner : JsOutcome CallResult) :
    (SkillInteractor.intendedTryCatch inner).isThrown = false
    ∧ (∀ e : String, inner = JsOutcome.thrown e →
        SkillInteractor.intendedTryCatch inner = JsOutcome.promise (Except.error e))
    ∧ (∀ r : Except String CallResult, inner = JsOutcome.promise r →
        SkillInteractor.intendedTryCatch inner = JsOutcome.promise r) := by
  refine ⟨?_, fun e he => ?_, fun r hr => ?_⟩
  · cases inner <;> rfl
  · rw [he]; rfl
  · rw [hr]; rfl

/-- C5 witness: a synchronous TypeError thrown while building the intent
request surfaces as a rejected promise, never as a synchronous throw. -/
theorem claim5_witness :
    (SkillInteractor.intendedTryCatch
        (JsOutcome.thrown "TypeError: malformed slot map" : JsOutcome CallResult)).isThrown
      = false
    ∧ SkillInteractor.intendedTryCatch
        (JsOutcome.thrown "TypeError: malformed slot map" : JsOutcome CallResult)
      = JsOutcome.promise (Except.error "TypeError: malformed slot map") := by
  have h := claim5_intended_catches_sync_faults
    (JsOutcome.thrown "TypeError: malformed slot map")
  exact ⟨h.1, h.2.1 "TypeError: malformed slot map" rfl⟩

end VirtualAlexa
